import Mathlib

/-!
Shallow embedding of `mestopy` (pyfar measurement-chain package),
file `src/mestopy/mestopy.py`.  Sample values and sensitivities are
modelled as rationals; a pyfar `Signal` is modelled by its time-domain
sample sequence (one channel), its sampling rate and its current
domain view.  Fallible operations return `Except Err`.
-/

/-- Error kinds raised by the code: Python `ValueError`, `TypeError`
and `IndexError`, each carrying its message. -/
inductive Err where
  | valueError (msg : String)
  | typeError (msg : String)
  | indexError (msg : String)
deriving DecidableEq, Repr

/-- The domain view of a pyfar Signal: `'time'` or `'freq'`. -/
inductive Domain where
  | time
  | freq
deriving DecidableEq, Repr

/-- A pyfar `Signal`: time-domain samples (one channel), sampling rate,
and the currently selected domain view.  The frequency view is a
transform of `time`, so `time` is the underlying data. -/
structure Signal where
  time : List ℚ
  sampling_rate : ℚ
  domain : Domain
deriving DecidableEq, Repr

/-- pyfar scalar multiplication `signal * scalar`: multiplies every
sample (linear operation, identical in both domains). -/
def Signal.mulScalar (s : Signal) (q : ℚ) : Signal :=
  ⟨s.time.map (fun x => x * q), s.sampling_rate, s.domain⟩

/-- Model of `Device`: name, optional Signal `data`, sensitivity
`sens`, optional `unit` string. -/
structure Device where
  name : String
  data : Option Signal
  sens : ℚ
  unit : Option String
deriving DecidableEq, Repr

/-- A Signal or a bare scalar: the type-variant value returned by
`Device.freq` and stored in `MeasurementChain._resp`. -/
inductive SigOrScalar where
  | sig (s : Signal)
  | scalar (q : ℚ)
deriving DecidableEq, Repr

/-- The `Device.freq` property: `self.data * self.sens` when `data` is not
None, else the bare scalar `self.sens`. -/
def Device.freq (d : Device) : SigOrScalar :=
  match d.data with
  | some s => .sig (s.mulScalar d.sens)
  | none => .scalar d.sens

/-- A small universe of dynamically typed Python values, used where the
code performs `isinstance` checks on its arguments. -/
inductive Py where
  | str (s : String)
  | int (n : Int)
  | float (q : ℚ)
  | signal (s : Signal)
  | none
deriving DecidableEq, Repr

/-- The `Device.name` setter: requires a string, else
`ValueError('Device name must be string.')`. -/
def Device.set_name (d : Device) (nm : Py) : Except Err Device :=
  match nm with
  | .str s => .ok ⟨s, d.data, d.sens, d.unit⟩
  | _ => .error (.valueError "Device name must be string.")

/-- The `Device.data` setter: requires a Signal or None, else
`TypeError('Input data must be type Signal or None.')`. -/
def Device.set_data (d : Device) (data : Py) : Except Err Device :=
  match data with
  | .signal s => .ok ⟨d.name, some s, d.sens, d.unit⟩
  | .none => .ok ⟨d.name, Option.none, d.sens, d.unit⟩
  | _ => .error (.typeError "Input data must be type Signal or None.")

/-- The `Device.sens` setter: requires an int or float, else
`ValueError('Sensitivity must be a number (int or float).')`. -/
def Device.set_sens (d : Device) (sens : Py) : Except Err Device :=
  match sens with
  | .int n => .ok ⟨d.name, d.data, (n : ℚ), d.unit⟩
  | .float q => .ok ⟨d.name, d.data, q, d.unit⟩
  | _ => .error (.valueError "Sensitivity must be a number (int or float).")

/-- The `Device.unit` setter: requires a string or None, else
`ValueError('Unit of sensitivity must be string or None.')`. -/
def Device.set_unit (d : Device) (u : Py) : Except Err Device :=
  match u with
  | .str s => .ok ⟨d.name, d.data, d.sens, some s⟩
  | .none => .ok ⟨d.name, d.data, d.sens, Option.none⟩
  | _ => .error (.valueError "Unit of sensitivity must be string or None.")

/-- Constructor `Device.__init__`: runs the four validated setters in assignment
order (name, data, sens, unit) on a fresh object. -/
def Device.construct (nm data sens u : Py) : Except Err Device :=
  (Device.set_name ⟨"", Option.none, 1, Option.none⟩ nm).bind fun d1 =>
    (d1.set_data data).bind fun d2 =>
      (d2.set_sens sens).bind fun d3 =>
        d3.set_unit u

/-- Pointwise addition of two sample sequences, the shorter one padded
with zeros (helper for full linear convolution). -/
def addList : List ℚ → List ℚ → List ℚ
  | [], ys => ys
  | xs, [] => xs
  | x :: xs, y :: ys => (x + y) :: addList xs ys

/-- Full linear convolution of two sample sequences, the semantics of
`scipy.signal.oaconvolve` on one channel: the output at position `n` is
`Σ a[i]*b[j]` over `i+j = n`, and the output length is
`len(a)+len(b)-1` for non-empty inputs. -/
def oaconvolve : List ℚ → List ℚ → List ℚ
  | [], _ => []
  | _, [] => []
  | [x], b => b.map (fun y => x * y)
  | x :: xs, b => addList (b.map (fun y => x * y)) (0 :: oaconvolve xs b)

/-- The cascade step of `MeasurementChain._freq`: convolve the running
accumulator with the device's effective response — its time samples
when `dev.freq` is a Signal, else the length-one kernel `[dev.freq]`. -/
def cascadeStep (acc : List ℚ) (dev : Device) : List ℚ :=
  match dev.freq with
  | .sig s => oaconvolve acc s.time
  | .scalar q => oaconvolve acc [q]

/-- Method `MeasurementChain._freq`: scalar `1.0` for an empty device list;
otherwise fold the cascade step over the devices starting from the unit
impulse `[1.0]`, wrap the result as a Signal at the chain's sampling
rate (constructed in the time domain), and switch its view to `freq`. -/
def computeFreq (sr : ℚ) (devices : List Device) : SigOrScalar :=
  if devices = [] then .scalar 1
  else .sig ⟨devices.foldl cascadeStep [1], sr, Domain.freq⟩

/-- Model of `MeasurementChain`: sampling rate, optional sound device id,
optional comment, ordered device list, and the cached response
`_resp` maintained by `_freq`. -/
structure MeasurementChain where
  sampling_rate : ℚ
  sound_device : Option Int
  comment : Option String
  devices : List Device
  resp : SigOrScalar
deriving DecidableEq, Repr

/-- Re-run `_freq` on the current device list, storing the result in
the `_resp` cache. -/
def MeasurementChain.recompute (c : MeasurementChain) : MeasurementChain :=
  ⟨c.sampling_rate, c.sound_device, c.comment, c.devices,
    computeFreq c.sampling_rate c.devices⟩

/-- The device-list validation loop of `MeasurementChain.__init__`:
every device with non-None `data` must match the chain's sampling rate,
else `ValueError`. -/
def checkDevices (sr : ℚ) : List Device → Except Err Unit
  | [] => .ok ()
  | d :: rest =>
    match d.data with
    | Option.none => checkDevices sr rest
    | some s =>
      if s.sampling_rate = sr then checkDevices sr rest
      else .error (.valueError
        "Sampling rate of device does not agree with the measurement chain.")

/-- Constructor `MeasurementChain.__init__`: stores sampling rate, sound device and
comment unvalidated; a None device list becomes `[]`, a given list is
validated by `checkDevices`; finally `_freq` fills the cache. -/
def MeasurementChain.construct (sr : ℚ) (sd : Option Int)
    (devices : Option (List Device)) (cm : Option String) :
    Except Err MeasurementChain :=
  match devices with
  | Option.none => .ok ⟨sr, sd, cm, [], computeFreq sr []⟩
  | some devs =>
    match checkDevices sr devs with
    | .error e => .error e
    | .ok _ => .ok ⟨sr, sd, cm, devs, computeFreq sr devs⟩

/-- Method `MeasurementChain.add_device`: when the chain is non-empty and the
new data is a Signal, its sampling rate must equal the chain's, else
`ValueError`; then a `Device` is appended and `_freq` recomputed.
No rate check happens when the chain is empty. -/
def MeasurementChain.add_device (c : MeasurementChain) (nm : String)
    (data : Option Signal) (sens : ℚ) (u : Option String) :
    Except Err MeasurementChain :=
  if c.devices = [] then
    .ok (MeasurementChain.recompute
      ⟨c.sampling_rate, c.sound_device, c.comment,
        c.devices ++ [⟨nm, data, sens, u⟩], c.resp⟩)
  else
    match data with
    | Option.none =>
      .ok (MeasurementChain.recompute
        ⟨c.sampling_rate, c.sound_device, c.comment,
          c.devices ++ [⟨nm, data, sens, u⟩], c.resp⟩)
    | some s =>
      if c.sampling_rate = s.sampling_rate then
        .ok (MeasurementChain.recompute
          ⟨c.sampling_rate, c.sound_device, c.comment,
            c.devices ++ [⟨nm, data, sens, u⟩], c.resp⟩)
      else
        .error (.valueError
          "Sampling rate of the new device doesnot agree with the measurement chain.")

/-- Method `MeasurementChain.list_devices`: the ordered list of device names. -/
def MeasurementChain.list_devices (c : MeasurementChain) : List String :=
  c.devices.map Device.name

/-- Method `MeasurementChain._find_device_index`: linear scan returning the
first index whose device bears the given name, else
`ValueError('device ... not found')`. -/
def MeasurementChain.find_device_index :
    List Device → String → Except Err Nat
  | [], nm => .error (.valueError ("device " ++ nm ++ " not found"))
  | d :: rest, nm =>
    if d.name = nm then .ok 0
    else (MeasurementChain.find_device_index rest nm).map (fun i => i + 1)

/-- Default device used with `List.getD` when stating index lookups. -/
def devDefault : Device := ⟨"", Option.none, 1, Option.none⟩

/-- The effective index of a Python list subscript: negative indices
count from the end of a list of length `n`. -/
def pyIndex (n : Nat) (i : Int) : Int :=
  if i < 0 then i + n else i

/-- Python `list.pop(i)`: negative indices count from the end;
`IndexError` when the effective index is out of range. -/
def pyPop (l : List Device) (i : Int) : Except Err (List Device) :=
  if 0 ≤ pyIndex l.length i ∧ pyIndex l.length i < l.length then
    .ok (l.eraseIdx (pyIndex l.length i).toNat)
  else .error (.indexError "pop index out of range")

/-- Python `list[i]`: negative indices count from the end; `IndexError`
when the effective index is out of range. -/
def pyGet (l : List Device) (i : Int) : Except Err Device :=
  if 0 ≤ pyIndex l.length i ∧ pyIndex l.length i < l.length then
    .ok (l.getD (pyIndex l.length i).toNat devDefault)
  else .error (.indexError "list index out of range")

/-- The selector of `remove_device` / `device_freq`: an int index or a
name string. -/
inductive Selector where
  | idx (i : Int)
  | name (s : String)
deriving DecidableEq, Repr

/-- The int branch of `MeasurementChain.remove_device`:
`devices.pop(num)` followed by `_freq`. -/
def MeasurementChain.remove_device_idx (c : MeasurementChain) (i : Int) :
    Except Err MeasurementChain :=
  (pyPop c.devices i).map fun ds =>
    MeasurementChain.recompute
      ⟨c.sampling_rate, c.sound_device, c.comment, ds, c.resp⟩

/-- Method `MeasurementChain.remove_device`: int selector pops that position;
string selector resolves the first matching index and re-enters the int
path (the outer call then runs `_freq` once more, which is idempotent). -/
def MeasurementChain.remove_device (c : MeasurementChain) (sel : Selector) :
    Except Err MeasurementChain :=
  match sel with
  | .idx i => c.remove_device_idx i
  | .name s =>
    (MeasurementChain.find_device_index c.devices s).bind fun i =>
      (c.remove_device_idx (i : Int)).map MeasurementChain.recompute

/-- Method `MeasurementChain.reset_devices`: clears the device list, leaves the
other fields, recomputes the cache. -/
def MeasurementChain.reset_devices (c : MeasurementChain) : MeasurementChain :=
  MeasurementChain.recompute
    ⟨c.sampling_rate, c.sound_device, c.comment, [], c.resp⟩

/-- The int branch of `MeasurementChain.device_freq`:
`devices[num].freq`. -/
def MeasurementChain.device_freq_idx (c : MeasurementChain) (i : Int) :
    Except Err SigOrScalar :=
  (pyGet c.devices i).map Device.freq

/-- Method `MeasurementChain.device_freq`: int selector indexes directly;
string selector resolves the first matching index first. -/
def MeasurementChain.device_freq (c : MeasurementChain) (sel : Selector) :
    Except Err SigOrScalar :=
  match sel with
  | .idx i => c.device_freq_idx i
  | .name s =>
    (MeasurementChain.find_device_index c.devices s).bind fun i =>
      c.device_freq_idx (i : Int)

/-- The `MeasurementChain.freq` read-only property: the cached
aggregate response. -/
def MeasurementChain.combined (c : MeasurementChain) : SigOrScalar :=
  c.resp

/-- The invariant relating the `_resp` cache to the device list: the
cache holds exactly what `_freq` computes from the current devices. -/
def CacheInv (c : MeasurementChain) : Prop :=
  c.resp = computeFreq c.sampling_rate c.devices

/-- Scalar-only device named `"x"` with sensitivity 2. -/
def devX2 : Device := ⟨"x", Option.none, 2, Option.none⟩

/-- Scalar-only device named `"y"` with sensitivity 5. -/
def devY5 : Device := ⟨"y", Option.none, 5, Option.none⟩

/-- Scalar-only device named `"x"` with sensitivity 3. -/
def devX3 : Device := ⟨"x", Option.none, 3, Option.none⟩

/-- A chain at 44100 Hz holding the devices `x` (sens 2) and `y`
(sens 5), with its cache already consistent. -/
def chainXY : MeasurementChain :=
  ⟨44100, Option.none, Option.none, [devX2, devY5],
    SigOrScalar.sig ⟨[10], 44100, Domain.freq⟩⟩

/-- Chain `chainXY` after `add_device('x', sens=3)`. -/
def chainXYX : MeasurementChain :=
  ⟨44100, Option.none, Option.none, [devX2, devY5, devX3],
    SigOrScalar.sig ⟨[30], 44100, Domain.freq⟩⟩

/-- Chain `chainXYX` after `remove_device('x')`: the first-inserted `x`
(sens 2) is removed, not the freshly added one (sens 3). -/
def chainYX : MeasurementChain :=
  ⟨44100, Option.none, Option.none, [devY5, devX3],
    SigOrScalar.sig ⟨[15], 44100, Domain.freq⟩⟩

/-- Scalar-only device named `"w"` with sensitivity 1. -/
def devW1 : Device := ⟨"w", Option.none, 1, Option.none⟩

/-- A one-device chain at 44100 Hz with a consistent cache. -/
def chainA : MeasurementChain :=
  ⟨44100, Option.none, Option.none, [devDefault],
    SigOrScalar.sig ⟨[1], 44100, Domain.freq⟩⟩

/-- Chain `chainA` after `add_device('w')`. -/
def chainAW : MeasurementChain :=
  MeasurementChain.recompute
    ⟨44100, Option.none, Option.none, [devDefault, devW1], chainA.resp⟩

/-- Chain `chainAW` after `remove_device('w')`: back to the device list of
`chainA`. -/
def chainAWback : MeasurementChain :=
  MeasurementChain.recompute (MeasurementChain.recompute
    ⟨44100, Option.none, Option.none, [devDefault],
      computeFreq 44100 [devDefault, devW1]⟩)

/-! ## Lemmas about the convolution primitive -/

theorem addList_length (xs ys : List ℚ) :
    (addList xs ys).length = max xs.length ys.length := by
  induction xs generalizing ys with
  | nil => simp [addList]
  | cons x xs ih =>
    cases ys with
    | nil => simp [addList]
    | cons y ys =>
      show (addList xs ys).length + 1 = max (xs.length + 1) (ys.length + 1)
      rw [ih]
      omega

theorem oaconvolve_cons_length (x : ℚ) (xs b : List ℚ) (hb : b ≠ []) :
    (oaconvolve (x :: xs) b).length = xs.length + b.length := by
  induction xs generalizing x with
  | nil =>
    cases b with
    | nil => cases hb rfl
    | cons y ys => simp [oaconvolve]
  | cons z zs ih =>
    cases b with
    | nil => cases hb rfl
    | cons y ys =>
      rw [show oaconvolve (x :: z :: zs) (y :: ys)
            = addList ((y :: ys).map fun t => x * t)
                (0 :: oaconvolve (z :: zs) (y :: ys)) from rfl]
      rw [addList_length, List.length_map]
      have h := ih z
      simp only [List.length_cons] at h ⊢
      omega

theorem oaconvolve_length (a b : List ℚ) (ha : a ≠ []) (hb : b ≠ []) :
    (oaconvolve a b).length = a.length + b.length - 1 := by
  cases a with
  | nil => cases ha rfl
  | cons x xs =>
    rw [oaconvolve_cons_length x xs b hb]
    simp only [List.length_cons]
    omega

theorem oaconvolve_scalar (a : List ℚ) (q : ℚ) :
    oaconvolve a [q] = a.map (fun x => x * q) := by
  induction a with
  | nil => rfl
  | cons x xs ih =>
    cases xs with
    | nil => simp [oaconvolve, mul_comm]
    | cons z zs =>
      rw [show oaconvolve (x :: z :: zs) [q]
            = addList ([q].map fun t => x * t) (0 :: oaconvolve (z :: zs) [q])
          from rfl]
      rw [ih]
      simp [addList]

/-! ## C1, C2, C6 -/

/-- C1: for every non-empty device list, `_freq` initializes the
accumulator as the unit impulse `[1.0]` and folds full linear
convolution with each device's effective response in chain order; a
filter stage contributes its time samples and grows the result to
`len(accumulator) + len(stage) - 1`, while a bare-scalar stage equals
multiplying every accumulator sample by the scalar, length unchanged. -/
theorem c1_cascade_convolution (sr : ℚ) (devs : List Device)
    (hne : devs ≠ []) :
    computeFreq sr devs
      = SigOrScalar.sig ⟨devs.foldl cascadeStep [1], sr, Domain.freq⟩
    ∧ (∀ (acc : List ℚ) (d : Device) (s : Signal), d.data = some s →
        cascadeStep acc d = oaconvolve acc (s.mulScalar d.sens).time
        ∧ (acc ≠ [] → s.time ≠ [] →
            (cascadeStep acc d).length = acc.length + s.time.length - 1))
    ∧ (∀ (acc : List ℚ) (d : Device), d.data = Option.none →
        cascadeStep acc d = acc.map (fun x => x * d.sens)
        ∧ (cascadeStep acc d).length = acc.length) := by
  refine ⟨by simp [computeFreq, hne], ?_, ?_⟩
  · intro acc d s hd
    have hstep : cascadeStep acc d = oaconvolve acc (s.mulScalar d.sens).time := by
      simp [cascadeStep, Device.freq, hd]
    refine ⟨hstep, fun hacc hst => ?_⟩
    have hmul : (s.mulScalar d.sens).time ≠ [] := by
      simpa [Signal.mulScalar] using hst
    rw [hstep, oaconvolve_length acc _ hacc hmul]
    simp [Signal.mulScalar]
  · intro acc d hd
    have hstep : cascadeStep acc d = oaconvolve acc [d.sens] := by
      simp [cascadeStep, Device.freq, hd]
    rw [hstep, oaconvolve_scalar]
    simp

/-- Witness for C1 at a concrete input: a scalar stage of
sensitivity 1 leaves a concrete accumulator unchanged. -/
theorem c1_cascade_convolution_witness :
    cascadeStep [1, 2] devDefault = [1, 2] := by
  have h :=
    ((c1_cascade_convolution 44100 [devDefault] (by simp)).2.2
      [1, 2] devDefault rfl).1
  rw [h]
  simp [devDefault]

/-- C2: a chain with zero devices has combined response exactly the
bare scalar `1.0` (not a dual representation); any chain with at least
one device has a Signal; a single scalar-only device of sensitivity `q`
yields a length-1 Signal whose sample is `q`. -/
theorem c2_combined_response_shape (sr q : ℚ) (nm : String)
    (u : Option String) (devs : List Device) (hne : devs ≠ []) :
    computeFreq sr [] = SigOrScalar.scalar 1
    ∧ (∃ sg : Signal, computeFreq sr devs = SigOrScalar.sig sg)
    ∧ computeFreq sr [⟨nm, Option.none, q, u⟩]
        = SigOrScalar.sig ⟨[q], sr, Domain.freq⟩
    ∧ (∀ c : MeasurementChain, CacheInv c →
        (c.devices = [] → c.combined = SigOrScalar.scalar 1)
        ∧ (c.devices ≠ [] →
            ∃ sg : Signal, c.combined = SigOrScalar.sig sg)) := by
  refine ⟨rfl,
    ⟨⟨devs.foldl cascadeStep [1], sr, Domain.freq⟩,
      by simp [computeFreq, hne]⟩, ?_, ?_⟩
  · simp [computeFreq, cascadeStep, Device.freq, oaconvolve]
  · intro c hc
    constructor
    · intro h
      rw [MeasurementChain.combined, hc, h]
      rfl
    · intro h
      exact ⟨⟨c.devices.foldl cascadeStep [1], c.sampling_rate, Domain.freq⟩,
        by rw [MeasurementChain.combined, hc]; simp [computeFreq, h]⟩

/-- Witness for C2 at a concrete input: one scalar device of
sensitivity 7 at 44100 Hz. -/
theorem c2_combined_response_shape_witness :
    computeFreq 44100 [⟨"a", Option.none, 7, Option.none⟩]
      = SigOrScalar.sig ⟨[7], 44100, Domain.freq⟩ :=
  (c2_combined_response_shape 44100 7 "a" Option.none [devDefault]
    (by simp)).2.2.1

/-- C6: a device's effective response is `data * sens` when `data` is
set, else exactly the bare scalar `sens`; `Device.freq` is a pure
function of the device. -/
theorem c6_effective_response (d : Device) :
    (∀ s : Signal, d.data = some s →
      d.freq = SigOrScalar.sig (s.mulScalar d.sens))
    ∧ (d.data = Option.none → d.freq = SigOrScalar.scalar d.sens) := by
  constructor
  · intro s hs
    simp [Device.freq, hs]
  · intro h
    simp [Device.freq, h]

/-- Witness for C6 at a concrete input: a scalar-only device of
sensitivity 2. -/
theorem c6_effective_response_witness :
    Device.freq devX2 = SigOrScalar.scalar 2 :=
  (c6_effective_response devX2).2 rfl

/-! ## C7: the cache is never stale -/

theorem cacheInv_recompute (c : MeasurementChain) :
    CacheInv c.recompute := rfl

theorem remove_device_idx_inv (c : MeasurementChain) (i : Int)
    (c' : MeasurementChain) (h : c.remove_device_idx i = .ok c') :
    CacheInv c' := by
  unfold MeasurementChain.remove_device_idx at h
  cases hp : pyPop c.devices i with
  | error e =>
    rw [hp] at h
    simp [Except.map] at h
  | ok ds =>
    rw [hp] at h
    simp only [Except.map] at h
    exact (Except.ok.inj h) ▸ cacheInv_recompute _

/-- C7: after construction and after every successful `add_device`,
`remove_device` or `reset_devices`, the cached combined response equals
the cascade recomputed from the current device list. -/
theorem c7_cache_never_stale :
    (∀ (sr : ℚ) (sd : Option Int) (devs : Option (List Device))
        (cm : Option String) (c : MeasurementChain),
        MeasurementChain.construct sr sd devs cm = .ok c → CacheInv c)
    ∧ (∀ (c : MeasurementChain) (nm : String) (data : Option Signal)
        (sens : ℚ) (u : Option String) (c' : MeasurementChain),
        c.add_device nm data sens u = .ok c' → CacheInv c')
    ∧ (∀ (c : MeasurementChain) (sel : Selector) (c' : MeasurementChain),
        c.remove_device sel = .ok c' → CacheInv c')
    ∧ (∀ c : MeasurementChain, CacheInv c.reset_devices) := by
  refine ⟨?_, ?_, ?_, ?_⟩
  · intro sr sd devs cm c h
    unfold MeasurementChain.construct at h
    split at h
    · exact (Except.ok.inj h) ▸ rfl
    · split at h
      · cases h
      · exact (Except.ok.inj h) ▸ rfl
  · intro c nm data sens u c' h
    unfold MeasurementChain.add_device at h
    split at h
    · exact (Except.ok.inj h) ▸ cacheInv_recompute _
    · split at h
      · exact (Except.ok.inj h) ▸ cacheInv_recompute _
      · split at h
        · exact (Except.ok.inj h) ▸ cacheInv_recompute _
        · cases h
  · intro c sel c' h
    unfold MeasurementChain.remove_device at h
    split at h
    · exact remove_device_idx_inv _ _ _ h
    · rename_i s
      cases hf : MeasurementChain.find_device_index c.devices s with
      | error e =>
        rw [hf] at h
        simp only [Except.bind] at h
        cases h
      | ok i =>
        rw [hf] at h
        simp only [Except.bind] at h
        cases hr : c.remove_device_idx (i : Int) with
        | error e =>
          rw [hr] at h
          simp only [Except.map] at h
          cases h
        | ok c'' =>
          rw [hr] at h
          simp only [Except.map] at h
          exact (Except.ok.inj h) ▸ cacheInv_recompute _
  · intro c
    exact cacheInv_recompute _

/-- Witness for C7 at a concrete input: the chain constructed at
44100 Hz with no devices satisfies the cache invariant. -/
theorem c7_cache_never_stale_witness :
    CacheInv ⟨44100, Option.none, Option.none, [], SigOrScalar.scalar 1⟩ :=
  c7_cache_never_stale.1 44100 Option.none Option.none Option.none _ rfl

/-! ## C8: first-match name lookup and removal -/

theorem find_device_index_ok (l : List Device) (nm : String) (i : Nat)
    (h : MeasurementChain.find_device_index l nm = .ok i) :
    i < l.length ∧ (l.getD i devDefault).name = nm
      ∧ ∀ j, j < i → (l.getD j devDefault).name ≠ nm := by
  induction l generalizing i with
  | nil => cases h
  | cons d rest ih =>
    by_cases hd : d.name = nm
    · simp only [MeasurementChain.find_device_index, if_pos hd] at h
      have h0 : i = 0 := (Except.ok.inj h).symm
      subst h0
      exact ⟨by simp, by simpa using hd, fun j hj => absurd hj (by omega)⟩
    · simp only [MeasurementChain.find_device_index, if_neg hd] at h
      cases hf : MeasurementChain.find_device_index rest nm with
      | error e =>
        rw [hf] at h
        simp only [Except.map] at h
        cases h
      | ok k =>
        rw [hf] at h
        simp only [Except.map] at h
        have hk : k + 1 = i := Except.ok.inj h
        subst hk
        obtain ⟨h1, h2, h3⟩ := ih k hf
        refine ⟨by simpa using Nat.succ_lt_succ h1, by simpa using h2, ?_⟩
        intro j hj
        cases j with
        | zero => simpa using hd
        | succ j' =>
          have := h3 j' (by omega)
          simpa using this

theorem find_device_index_none (l : List Device) (nm : String)
    (h : ∀ d ∈ l, d.name ≠ nm) :
    MeasurementChain.find_device_index l nm
      = .error (.valueError ("device " ++ nm ++ " not found")) := by
  induction l with
  | nil => rfl
  | cons d rest ih =>
    have hd : d.name ≠ nm := h d (by simp)
    simp only [MeasurementChain.find_device_index, if_neg hd]
    rw [ih (fun x hx => h x (by simp [hx]))]
    rfl

/-- C8: a successful name lookup returns the first matching index;
`remove_device` by name errors with `NotFound` when no device has that
name, and otherwise removes exactly the device at the first matching
index. -/
theorem c8_first_match (c : MeasurementChain) (nm : String) :
    (∀ i, MeasurementChain.find_device_index c.devices nm = .ok i →
        i < c.devices.length ∧ (c.devices.getD i devDefault).name = nm
          ∧ ∀ j, j < i → (c.devices.getD j devDefault).name ≠ nm)
    ∧ ((∀ d ∈ c.devices, d.name ≠ nm) →
        c.remove_device (Selector.name nm)
          = .error (.valueError ("device " ++ nm ++ " not found")))
    ∧ (∀ i c', MeasurementChain.find_device_index c.devices nm = .ok i →
        c.remove_device (Selector.name nm) = .ok c' →
        c'.devices = c.devices.eraseIdx i) := by
  refine ⟨fun i h => find_device_index_ok c.devices nm i h, ?_, ?_⟩
  · intro h
    simp only [MeasurementChain.remove_device]
    rw [find_device_index_none c.devices nm h]
    rfl
  · intro i c' h1 h2
    have hi := (find_device_index_ok c.devices nm i h1).1
    have hpop : pyPop c.devices (i : Int) = .ok (c.devices.eraseIdx i) := by
      unfold pyPop
      have hj : pyIndex c.devices.length (i : Int) = (i : Int) := by
        unfold pyIndex
        rw [if_neg (by omega)]
      rw [hj, if_pos (by omega)]
      simp
    simp only [MeasurementChain.remove_device] at h2
    rw [h1] at h2
    simp only [Except.bind] at h2
    unfold MeasurementChain.remove_device_idx at h2
    rw [hpop] at h2
    simp only [Except.map] at h2
    rw [← Except.ok.inj h2]
    rfl

/-- Witness for C8 at a concrete input: in a chain holding devices
named x, y, x, looking the name x up yields index 0, the earliest
match. -/
theorem c8_first_match_witness :
    0 < chainXYX.devices.length
      ∧ (chainXYX.devices.getD 0 devDefault).name = "x"
      ∧ ∀ j, j < 0 → (chainXYX.devices.getD j devDefault).name ≠ "x" :=
  (c8_first_match chainXYX "x").1 0 rfl

/-! ## C10: negative index -1 addresses the last device -/

theorem eraseIdx_last (l : List Device) (h : l ≠ []) :
    l.eraseIdx (l.length - 1) = l.dropLast := by
  induction l with
  | nil => cases h rfl
  | cons x xs ih =>
    cases xs with
    | nil => rfl
    | cons y ys =>
      show x :: (y :: ys).eraseIdx ((y :: ys).length - 1) = x :: (y :: ys).dropLast
      rw [ih (by simp)]

theorem getD_last (l : List Device) (h : l ≠ []) :
    l.getD (l.length - 1) devDefault = l.getLast h := by
  induction l with
  | nil => cases h rfl
  | cons x xs ih =>
    cases xs with
    | nil => rfl
    | cons y ys =>
      rw [List.getLast_cons_cons, ← ih (by simp)]
      rfl

/-- C10: on a non-empty chain, the selector `-1` is accepted by both
`remove_device` and `device_freq` (no `IndexOutOfRange`): it removes,
respectively returns the effective response of, the last device. -/
theorem c10_negative_index (c : MeasurementChain) (hne : c.devices ≠ []) :
    (∃ c', c.remove_device (Selector.idx (-1)) = .ok c'
        ∧ c'.devices = c.devices.dropLast)
    ∧ c.device_freq (Selector.idx (-1))
        = .ok ((c.devices.getLast hne).freq) := by
  have hlen : 0 < c.devices.length := List.length_pos.2 hne
  have hidx : pyIndex c.devices.length (-1) = (c.devices.length : Int) - 1 := by
    unfold pyIndex
    rw [if_pos (by omega)]
    omega
  have htn : ((c.devices.length : Int) - 1).toNat = c.devices.length - 1 := by
    omega
  constructor
  · refine ⟨MeasurementChain.recompute ⟨c.sampling_rate, c.sound_device,
      c.comment, c.devices.dropLast, c.resp⟩, ?_, rfl⟩
    show c.remove_device_idx (-1) = _
    unfold MeasurementChain.remove_device_idx pyPop
    rw [hidx, if_pos (by omega), htn, eraseIdx_last c.devices hne]
    rfl
  · show c.device_freq_idx (-1) = _
    unfold MeasurementChain.device_freq_idx pyGet
    rw [hidx, if_pos (by omega), htn, getD_last c.devices hne]
    rfl

/-- Witness for C10 at a concrete input: on the three-device chain
x, y, x the selector -1 addresses the last device (sensitivity 3). -/
theorem c10_negative_index_witness :
    chainXYX.device_freq (Selector.idx (-1)) = .ok (SigOrScalar.scalar 3) := by
  have h := (c10_negative_index chainXYX (by simp [chainXYX])).2
  rw [h]
  rfl

/-! ## C3: the add-time rate check fires only on a non-empty chain -/

/-- Counterexample to C3 as stated: on an *empty* chain at 44100 Hz,
adding a device whose response is sampled at 48000 Hz does not raise —
the device is appended, so the rejection does not hold "regardless of
whether the chain already contains devices". -/
theorem c3_counterexample :
    MeasurementChain.construct 44100 Option.none Option.none Option.none
      = .ok ⟨44100, Option.none, Option.none, [], SigOrScalar.scalar 1⟩
    ∧ (MeasurementChain.mk 44100 Option.none Option.none []
          (SigOrScalar.scalar 1)).add_device
        "mic" (some ⟨[1], 48000, Domain.time⟩) 1 Option.none
      = .ok ⟨44100, Option.none, Option.none,
          [⟨"mic", some ⟨[1], 48000, Domain.time⟩, 1, Option.none⟩],
          SigOrScalar.sig ⟨[1], 44100, Domain.freq⟩⟩ := by
  constructor
  · rfl
  · simp [MeasurementChain.add_device, MeasurementChain.recompute, computeFreq,
      cascadeStep, Device.freq, Signal.mulScalar, oaconvolve]

/-- C3 as amended: the rate check fires exactly when the chain already
holds at least one device; then a mismatched Signal is rejected with
`ValueError` and, the operation returning only the error, the device
list is left unchanged.  On an empty chain no check happens. -/
theorem c3_amended_rate_check (c : MeasurementChain) (nm : String)
    (s : Signal) (sens : ℚ) (u : Option String)
    (hne : c.devices ≠ []) (hr : c.sampling_rate ≠ s.sampling_rate) :
    c.add_device nm (some s) sens u
      = .error (.valueError
          "Sampling rate of the new device doesnot agree with the measurement chain.") := by
  unfold MeasurementChain.add_device
  rw [if_neg hne]
  simp only []
  rw [if_neg hr]

/-- Witness for the amended C3 at a concrete input: a one-device chain
at 44100 Hz rejects a 48000 Hz response. -/
theorem c3_amended_rate_check_witness :
    chainA.add_device "mic" (some ⟨[1], 48000, Domain.time⟩) 1 Option.none
      = .error (.valueError
          "Sampling rate of the new device doesnot agree with the measurement chain.") :=
  c3_amended_rate_check chainA "mic" ⟨[1], 48000, Domain.time⟩ 1 Option.none
    (by simp [chainA]) (by decide)

/-! ## C4: construction does not validate positivity of the rate -/

/-- Counterexample to C4 as stated: constructing a chain with the
non-positive sampling rate -5 succeeds (no validation whatsoever is
performed on `sampling_rate`). -/
theorem c4_counterexample :
    MeasurementChain.construct (-5) Option.none Option.none Option.none
      = .ok ⟨-5, Option.none, Option.none, [], SigOrScalar.scalar 1⟩ := rfl

theorem checkDevices_error (sr : ℚ) (l : List Device)
    (h : ∃ d ∈ l, ∃ s : Signal, d.data = some s ∧ s.sampling_rate ≠ sr) :
    checkDevices sr l = .error (.valueError
      "Sampling rate of device does not agree with the measurement chain.") := by
  induction l with
  | nil => simp at h
  | cons d rest ih =>
    by_cases hd : ∀ s2 : Signal, d.data = some s2 → s2.sampling_rate = sr
    · have hrest : ∃ d' ∈ rest, ∃ s : Signal,
          d'.data = some s ∧ s.sampling_rate ≠ sr := by
        obtain ⟨d', hd', s, hs, hrr⟩ := h
        rcases List.mem_cons.1 hd' with rfl | hm
        · exact absurd (hd s hs) hrr
        · exact ⟨d', hm, s, hs, hrr⟩
      cases hdd : d.data with
      | none =>
        simp only [checkDevices, hdd]
        exact ih hrest
      | some s2 =>
        simp only [checkDevices, hdd, if_pos (hd s2 hdd)]
        exact ih hrest
    · push_neg at hd
      obtain ⟨s2, hs2, hr2⟩ := hd
      simp only [checkDevices, hs2, if_neg hr2]

theorem checkDevices_ok (sr : ℚ) (l : List Device)
    (h : ∀ d ∈ l, ∀ s : Signal, d.data = some s → s.sampling_rate = sr) :
    checkDevices sr l = .ok () := by
  induction l with
  | nil => rfl
  | cons d rest ih =>
    have hrest := ih (fun x hx s hs => h x (by simp [hx]) s hs)
    cases hdd : d.data with
    | none => simp only [checkDevices, hdd]; exact hrest
    | some s2 =>
      simp only [checkDevices, hdd, if_pos (h d (by simp) s2 hdd)]
      exact hrest

/-- C4 as amended: construction never validates positivity of the
sampling rate (any value is accepted), but an initial device list is
validated — a device with a non-absent response at a different rate
fails construction with `ValueError`, and an all-matching list is
accepted unchanged. -/
theorem c4_amended_construct_validation (sr : ℚ) (sd : Option Int)
    (cm : Option String) (devs : List Device) :
    (∃ c, MeasurementChain.construct sr sd Option.none cm = .ok c
        ∧ c.sampling_rate = sr)
    ∧ ((∃ d ∈ devs, ∃ s : Signal, d.data = some s ∧ s.sampling_rate ≠ sr) →
        MeasurementChain.construct sr sd (some devs) cm
          = .error (.valueError
              "Sampling rate of device does not agree with the measurement chain."))
    ∧ ((∀ d ∈ devs, ∀ s : Signal, d.data = some s → s.sampling_rate = sr) →
        MeasurementChain.construct sr sd (some devs) cm
          = .ok ⟨sr, sd, cm, devs, computeFreq sr devs⟩) := by
  refine ⟨⟨⟨sr, sd, cm, [], computeFreq sr []⟩, rfl, rfl⟩, ?_, ?_⟩
  · intro h
    simp only [MeasurementChain.construct, checkDevices_error sr devs h]
  · intro h
    simp only [MeasurementChain.construct, checkDevices_ok sr devs h]

/-- Witness for the amended C4 at a concrete input: an initial device
list holding a 48000 Hz response fails construction at 44100 Hz. -/
theorem c4_amended_construct_validation_witness :
    MeasurementChain.construct 44100 Option.none
        (some [⟨"m", some ⟨[1], 48000, Domain.time⟩, 1, Option.none⟩])
        Option.none
      = .error (.valueError
          "Sampling rate of device does not agree with the measurement chain.") :=
  (c4_amended_construct_validation 44100 Option.none Option.none
      [⟨"m", some ⟨[1], 48000, Domain.time⟩, 1, Option.none⟩]).2.1
    ⟨⟨"m", some ⟨[1], 48000, Domain.time⟩, 1, Option.none⟩, by simp,
      ⟨[1], 48000, Domain.time⟩, rfl, by norm_num⟩

/-! ## C5: add/remove round trip -/

theorem add_device_ok (c : MeasurementChain) (nm : String)
    (data : Option Signal) (sens : ℚ) (u : Option String)
    (c' : MeasurementChain) (h : c.add_device nm data sens u = .ok c') :
    c' = MeasurementChain.recompute
      ⟨c.sampling_rate, c.sound_device, c.comment,
        c.devices ++ [⟨nm, data, sens, u⟩], c.resp⟩ := by
  unfold MeasurementChain.add_device at h
  split at h
  · exact (Except.ok.inj h).symm
  · split at h
    · exact (Except.ok.inj h).symm
    · split at h
      · exact (Except.ok.inj h).symm
      · cases h

theorem find_device_index_append (l : List Device) (d : Device)
    (nm : String) (hl : ∀ x ∈ l, x.name ≠ nm) (hd : d.name = nm) :
    MeasurementChain.find_device_index (l ++ [d]) nm = .ok l.length := by
  induction l with
  | nil => simp [MeasurementChain.find_device_index, hd]
  | cons x xs ih =>
    have hx : x.name ≠ nm := hl x (by simp)
    show MeasurementChain.find_device_index (x :: (xs ++ [d])) nm = _
    simp only [MeasurementChain.find_device_index, if_neg hx]
    rw [ih (fun y hy => hl y (by simp [hy]))]
    rfl

theorem eraseIdx_append_length (l : List Device) (d : Device) :
    (l ++ [d]).eraseIdx l.length = l := by
  induction l with
  | nil => rfl
  | cons x xs ih =>
    show x :: (xs ++ [d]).eraseIdx xs.length = x :: xs
    rw [ih]

/-- Counterexample to C5 as stated: in a chain already holding a device
named x (sens 2) and one named y (sens 5), adding another x (sens 3)
then removing by name x removes the *earliest* x, so neither the
ordered name list nor the combined response returns to its pre-add
value. -/
theorem c5_counterexample :
    CacheInv chainXY
    ∧ chainXY.list_devices = ["x", "y"]
    ∧ chainXY.add_device "x" Option.none 3 Option.none = .ok chainXYX
    ∧ chainXYX.remove_device (Selector.name "x") = .ok chainYX
    ∧ chainYX.list_devices = ["y", "x"]
    ∧ chainYX.list_devices ≠ chainXY.list_devices
    ∧ chainYX.combined ≠ chainXY.combined := by
  refine ⟨?_, by rfl, ?_, ?_, by rfl, by simp [chainYX, chainXY,
    MeasurementChain.list_devices, devX2, devY5, devX3], ?_⟩
  · show chainXY.resp = computeFreq chainXY.sampling_rate chainXY.devices
    norm_num [chainXY, computeFreq, cascadeStep, Device.freq, devX2, devY5,
      oaconvolve]
    rw [if_neg (List.cons_ne_nil _ _)]
  · norm_num [chainXY, chainXYX, MeasurementChain.add_device,
      MeasurementChain.recompute, computeFreq, cascadeStep, Device.freq,
      devX2, devY5, devX3, oaconvolve]
    intro h
    exact absurd h (List.cons_ne_nil _ _)
  · norm_num [chainXYX, chainYX, MeasurementChain.remove_device,
      MeasurementChain.find_device_index, MeasurementChain.remove_device_idx,
      MeasurementChain.recompute, pyPop, pyIndex, Except.bind, Except.map,
      computeFreq, cascadeStep, Device.freq, devX2, devY5, devX3, oaconvolve,
      List.eraseIdx]
    intro h
    exact absurd h (List.cons_ne_nil _ _)
  · norm_num [chainYX, chainXY, MeasurementChain.combined]

/-- C5 as amended: the add-then-remove-by-name round trip restores both
the ordered name list and the combined response provided the added name
does not already occur in the chain (with a duplicate name the earliest
match is removed instead, as the counterexample shows). -/
theorem c5_amended_roundtrip (c c1 c2 : MeasurementChain) (nm : String)
    (data : Option Signal) (sens : ℚ) (u : Option String)
    (hinv : CacheInv c) (hfresh : nm ∉ c.list_devices)
    (h1 : c.add_device nm data sens u = .ok c1)
    (h2 : c1.remove_device (Selector.name nm) = .ok c2) :
    c2.list_devices = c.list_devices ∧ c2.combined = c.combined := by
  have hc1 := add_device_ok c nm data sens u c1 h1
  subst hc1
  have hnames : ∀ x ∈ c.devices, x.name ≠ nm := by
    intro x hx hEq
    exact hfresh (hEq ▸ List.mem_map_of_mem Device.name hx)
  have hfind : MeasurementChain.find_device_index
      (c.devices ++ [⟨nm, data, sens, u⟩]) nm = .ok c.devices.length :=
    find_device_index_append _ _ _ hnames rfl
  have hlen : (c.devices ++ [(⟨nm, data, sens, u⟩ : Device)]).length
      = c.devices.length + 1 := by simp
  have hj : pyIndex (c.devices ++ [(⟨nm, data, sens, u⟩ : Device)]).length
      (c.devices.length : Int) = (c.devices.length : Int) := by
    unfold pyIndex
    rw [if_neg (by omega)]
  have hpop : pyPop (c.devices ++ [(⟨nm, data, sens, u⟩ : Device)])
      (c.devices.length : Int) = .ok c.devices := by
    unfold pyPop
    rw [hj, if_pos ⟨by omega, by rw [hlen]; omega⟩, Int.toNat_natCast,
      eraseIdx_append_length]
  simp only [MeasurementChain.remove_device, MeasurementChain.recompute] at h2
  rw [hfind] at h2
  simp only [Except.bind] at h2
  unfold MeasurementChain.remove_device_idx at h2
  rw [hpop] at h2
  simp only [Except.map] at h2
  rw [← Except.ok.inj h2]
  constructor
  · simp [MeasurementChain.list_devices, MeasurementChain.recompute]
  · simp only [MeasurementChain.combined, MeasurementChain.recompute]
    exact hinv.symm

/-- Witness for the amended C5 at a concrete input: adding a fresh
device named w to a one-device chain and removing it by name restores
both observables. -/
theorem c5_amended_roundtrip_witness :
    chainAWback.list_devices = chainA.list_devices
    ∧ chainAWback.combined = chainA.combined :=
  c5_amended_roundtrip chainA chainAW chainAWback "w" Option.none 1
    Option.none
    (by simp [CacheInv, chainA, computeFreq, cascadeStep, Device.freq,
      devDefault, oaconvolve])
    (by decide) rfl rfl

/-! ## C9: device names are validated as text only -/

/-- Counterexample to C9 as stated: the empty string passes the name
check, so the stored name is not always non-empty — `Device('')`
succeeds and stores the empty name. -/
theorem c9_counterexample :
    (Device.construct (Py.str "") Py.none (Py.int 1) Py.none).map Device.name
      = .ok "" := rfl

theorem except_bind_ok {α β : Type} (x : Except Err α)
    (f : α → Except Err β) (b : β) (h : x.bind f = .ok b) :
    ∃ a, x = .ok a ∧ f a = .ok b := by
  cases x with
  | error e => simp [Except.bind] at h
  | ok a => exact ⟨a, rfl, h⟩

theorem set_data_keeps_name (d : Device) (x : Py) (d' : Device)
    (h : d.set_data x = .ok d') : d'.name = d.name := by
  cases x <;> simp [Device.set_data] at h <;> simp [← h]

theorem set_sens_keeps_name (d : Device) (x : Py) (d' : Device)
    (h : d.set_sens x = .ok d') : d'.name = d.name := by
  cases x <;> simp [Device.set_sens] at h <;> simp [← h]

theorem set_unit_keeps_name (d : Device) (x : Py) (d' : Device)
    (h : d.set_unit x = .ok d') : d'.name = d.name := by
  cases x <;> simp [Device.set_unit] at h <;> simp [← h]

/-- C9 as amended: the name setter and the constructor validate only
that the name argument is text (raising `ValueError` otherwise) and
store exactly the given string, which may be empty — non-emptiness is
not enforced. -/
theorem c9_amended_name_text (d : Device) (nm : Py) :
    ((∀ s : String, nm ≠ Py.str s) →
      d.set_name nm = .error (.valueError "Device name must be string."))
    ∧ (∀ s : String, nm = Py.str s →
        d.set_name nm = .ok ⟨s, d.data, d.sens, d.unit⟩)
    ∧ (∀ (data sens u : Py) (d' : Device),
        Device.construct nm data sens u = .ok d' →
        ∃ s : String, nm = Py.str s ∧ d'.name = s) := by
  refine ⟨?_, ?_, ?_⟩
  · intro h
    cases nm with
    | str s => exact absurd rfl (h s)
    | int _ => rfl
    | float _ => rfl
    | signal _ => rfl
    | none => rfl
  · intro s hs
    subst hs
    rfl
  · intro data sens u d' h
    cases nm with
    | int n => cases h
    | float q => cases h
    | signal s => cases h
    | none => cases h
    | str s =>
      refine ⟨s, rfl, ?_⟩
      unfold Device.construct at h
      obtain ⟨d1, hd1, h⟩ := except_bind_ok _ _ _ h
      obtain ⟨d2, hd2, h⟩ := except_bind_ok _ _ _ h
      obtain ⟨d3, hd3, h⟩ := except_bind_ok _ _ _ h
      have hn1 : d1.name = s := by rw [← Except.ok.inj hd1]
      rw [set_unit_keeps_name d3 u d' h, set_sens_keeps_name d2 sens d3 hd3,
        set_data_keeps_name d1 data d2 hd2, hn1]

/-- Witness for the amended C9 at a concrete input: a numeric name is
rejected with `ValueError`. -/
theorem c9_amended_name_text_witness :
    Device.set_name devDefault (Py.int 7)
      = .error (.valueError "Device name must be string.") :=
  (c9_amended_name_text devDefault (Py.int 7)).1
    (fun _ h => Py.noConfusion h)
